import Mathlib

/-!
Shallow embedding of the `fastapi-reqid` package (files
`fastapi_reqid/context.py`, `fastapi_reqid/middleware.py`,
`fastapi_reqid/decorators.py`) and proofs of the specification claims
about it.

Conventions of the embedding:

* Python strings are Lean `String`s; `None` is `Option.none`.
* A `contextvars.ContextVar[Optional[str]]`, viewed from within one
  logical flow, is the optional string it currently holds.
* Starlette header collections are association lists with
  case-insensitive (lower-cased) key lookup; `MutableHeaders.__setitem__`
  removes all entries with the given key and appends the new pair.
* A fallible Python computation is an `Except`; an exception raised by
  the wrapped handler is the `error` case, and the middleware or a
  decorator wrapper may add its own error constructors.
* The zero-argument `generator` callable of the middleware is modelled
  by the string it would return on this request (it is called at most
  once per dispatch).
-/

namespace FastapiReqid

/-- The characters stripped by Python `str.strip()` with no argument:
exactly those for which `str.isspace()` holds — the ASCII whitespace
0x09–0x0D and 0x20, the separator controls 0x1C–0x1F, next line 0x85,
no-break space 0xA0, Ogham space mark 0x1680, the Unicode space
separators 0x2000–0x200A, 0x202F, 0x205F and 0x3000, and the line and
paragraph separators 0x2028 and 0x2029. -/
def pyIsSpace (c : Char) : Bool :=
  (0x09 ≤ c.toNat ∧ c.toNat ≤ 0x0d) ||
  (0x1c ≤ c.toNat ∧ c.toNat ≤ 0x1f) ||
  c.toNat = 0x20 || c.toNat = 0x85 || c.toNat = 0xa0 ||
  c.toNat = 0x1680 ||
  (0x2000 ≤ c.toNat ∧ c.toNat ≤ 0x200a) ||
  c.toNat = 0x2028 || c.toNat = 0x2029 || c.toNat = 0x202f ||
  c.toNat = 0x205f || c.toNat = 0x3000

/-- Python `s.strip()`: remove leading and trailing whitespace. -/
def pyStrip (s : String) : String :=
  String.mk (((s.data.dropWhile pyIsSpace).reverse.dropWhile pyIsSpace).reverse)

/-- A header collection: an ordered list of name/value pairs. -/
abbrev Headers := List (String × String)

/-- ASCII lower-casing of one character (HTTP header names are ASCII). -/
def asciiLowerChar (c : Char) : Char :=
  if 65 ≤ c.toNat ∧ c.toNat ≤ 90 then Char.ofNat (c.toNat + 32) else c

/-- ASCII lower-casing of a string, as Starlette applies to header
names to make header lookup case-insensitive. -/
def asciiLower (s : String) : String :=
  String.mk (s.data.map asciiLowerChar)

/-- Starlette `headers.get(name)`: case-insensitive lookup of the first
entry with the given name. -/
def headersGet (hs : Headers) (name : String) : Option String :=
  (hs.find? (fun kv => asciiLower kv.1 = asciiLower name)).map (fun kv => kv.2)

/-- Starlette `headers[name] = value` on a mutable header collection:
drop every entry with the given (case-insensitive) name, then append
the new pair. -/
def headersSet (hs : Headers) (name value : String) : Headers :=
  (hs.filter (fun kv => asciiLower kv.1 ≠ asciiLower name)) ++ [(name, value)]

/-- `contextvars.ContextVar[Optional[str]]` as seen from one logical
flow: the value the variable currently holds in that flow. -/
structure ContextVar where
  value : Option String
deriving DecidableEq, Repr

/-- `request_id_context = ContextVar("request_id", default=None)`: the
fresh variable holds its default, `None`. -/
def request_id_context : ContextVar := ⟨none⟩

/-- The token returned by `ContextVar.set`: it captures the binding
that was current immediately before the `set`. -/
structure Token where
  old_value : Option String
deriving DecidableEq, Repr

/-- `get_request_id()` (`context.py`): return the current value of
`request_id_context`. -/
def get_request_id (ctx : ContextVar) : Option String :=
  ctx.value

/-- `set_request_id(request_id)` (`context.py`): bind `request_id` as
the current value and return the reset token capturing the prior
binding. -/
def set_request_id (request_id : String) (ctx : ContextVar) : Token × ContextVar :=
  (⟨ctx.value⟩, ⟨some request_id⟩)

/-- `request_id_context.reset(token)`: restore the binding captured by
the token. -/
def reset (t : Token) (_ctx : ContextVar) : ContextVar :=
  ⟨t.old_value⟩

/-- An inbound Starlette request, with the one piece of per-request
mutable storage the middleware writes (`request.state.request_id`). -/
structure Request where
  headers : Headers
  state_request_id : Option String
deriving Repr

/-- An outgoing Starlette response. -/
structure Response where
  headers : Headers
deriving Repr

/-- Lines 29–31 of `middleware.py`:
`request_id = request.headers.get(self.header_name)` followed by
`if not request_id or not request_id.strip(): request_id = self.generator()`.
`not request_id` is true for `None` and for the empty string;
`not request_id.strip()` is true when the value is whitespace-only. -/
def resolveRequestId (header_name : String) (req : Request) (generated : String) : String :=
  match headersGet req.headers header_name with
  | none => generated
  | some v => if v = "" ∨ pyStrip v = "" then generated else v

/-- `RequestIDMiddleware.dispatch` (`middleware.py`): resolve the
identifier, bind it via `set_request_id`, store it on `request.state`,
call the next stage, mirror the identifier onto the response headers on
normal completion, and in all cases reset the context binding via the
token (the `finally` block). Returns the outcome together with the
final state of the context variable. -/
def dispatch {ε : Type} (header_name : String) (generated : String)
    (call_next : Request → Except ε Response)
    (ctx : ContextVar) (req : Request) :
    Except ε Response × ContextVar :=
  let request_id := resolveRequestId header_name req generated
  let tc := set_request_id request_id ctx
  let token := tc.1
  let ctx1 := tc.2
  let req1 : Request := { req with state_request_id := some request_id }
  match call_next req1 with
  | Except.ok response =>
      (Except.ok { response with
          headers := headersSet response.headers header_name request_id },
        reset token ctx1)
  | Except.error e => (Except.error e, reset token ctx1)

/-! Embedding of `decorators.py`.

Each decorator builds a wrapper around a handler.  A wrapper invocation
depends on: whether the client library is importable, the keyword
argument named `request` (as an optional Python object), the positional
arguments, the context variable, and the outcome of the wrapped
handler.  We record what the invocation does in a `WrapRun`. -/

/-- A Python object as the wrappers probe it: its truthiness (for
`if not request:` and `if request:`) and whether it has a `state`
attribute (for `hasattr(arg, "state")`). -/
structure PyObj where
  truthy : Bool
  hasStateAttr : Bool
deriving DecidableEq, Repr

/-- Python truthiness of an optional object (`None` is falsy). -/
def pyTruthy : Option PyObj → Bool
  | none => false
  | some o => o.truthy

/-- The request-locating block shared by every wrapper body:
`request = kwargs.get("request")`, and if that is falsy, scan the
positional arguments for the first one with a `state` attribute
(leaving `request` unchanged when none is found). -/
def locateRequest (kwargsRequest : Option PyObj) (args : List PyObj) : Option PyObj :=
  if pyTruthy kwargsRequest then kwargsRequest
  else
    match args.find? (fun a => a.hasStateAttr) with
    | some a => some a
    | none => kwargsRequest

/-- An exception escaping a wrapper invocation: either the wrapper's
own `ImportError` for a missing client library, or whatever the
wrapped handler raised. -/
inductive PyErr (ε : Type)
  | importErr (msg : String)
  | handlerErr (e : ε)
deriving DecidableEq, Repr

/-- Everything observable about one wrapper invocation. -/
structure WrapRun (ε α : Type) where
  result : Except (PyErr ε) α
  clientConstructed : Bool
  clientHeaders : Headers
  attached : Bool
  handlerCalled : Bool
  clientClosed : Bool
deriving Repr

/-- The headers passed to the `httpx`/`aiohttp` client constructor:
`{"X-Request-ID": request_id} if request_id else {}`.  A Python
string is truthy only when non-empty, so both `None` and the empty
string yield the empty header set. -/
def injectionHeaders (request_id : Option String) : Headers :=
  match request_id with
  | some i => if i = "" then [] else [("X-Request-ID", i)]
  | none => []

/-- `inject_httpx_requestid.async_wrapper` (`decorators.py`): check the
`httpx` import (raising `ImportError` when missing), locate the
request, read the identifier from the context, construct an
`AsyncClient` with the corresponding headers, attach it to
`request.state` when a truthy request was found, call the handler, and
close the client in a `finally` block on both the normal and the
exceptional path, letting a handler failure propagate unchanged. -/
def async_wrapper {ε α : Type} (httpxAvailable : Bool)
    (kwargsRequest : Option PyObj) (args : List PyObj)
    (ctx : ContextVar) (funcResult : Except ε α) : WrapRun ε α :=
  if httpxAvailable = false then
    { result := Except.error (PyErr.importErr
        "httpx not installed. Install with: pip install httpx"),
      clientConstructed := false, clientHeaders := [],
      attached := false, handlerCalled := false, clientClosed := false }
  else
    let request := locateRequest kwargsRequest args
    let request_id := get_request_id ctx
    let headers := injectionHeaders request_id
    match funcResult with
    | Except.ok a =>
        { result := Except.ok a,
          clientConstructed := true, clientHeaders := headers,
          attached := pyTruthy request, handlerCalled := true,
          clientClosed := true }
    | Except.error e =>
        { result := Except.error (PyErr.handlerErr e),
          clientConstructed := true, clientHeaders := headers,
          attached := pyTruthy request, handlerCalled := true,
          clientClosed := true }

/-- `inject_httpx_requestid.sync_wrapper` (`decorators.py`): same body
as the asynchronous one, with a synchronous `httpx.Client` and
`client.close()` in the `finally` block. -/
def sync_wrapper {ε α : Type} (httpxAvailable : Bool)
    (kwargsRequest : Option PyObj) (args : List PyObj)
    (ctx : ContextVar) (funcResult : Except ε α) : WrapRun ε α :=
  if httpxAvailable = false then
    { result := Except.error (PyErr.importErr
        "httpx not installed. Install with: pip install httpx"),
      clientConstructed := false, clientHeaders := [],
      attached := false, handlerCalled := false, clientClosed := false }
  else
    let request := locateRequest kwargsRequest args
    let request_id := get_request_id ctx
    let headers := injectionHeaders request_id
    match funcResult with
    | Except.ok a =>
        { result := Except.ok a,
          clientConstructed := true, clientHeaders := headers,
          attached := pyTruthy request, handlerCalled := true,
          clientClosed := true }
    | Except.error e =>
        { result := Except.error (PyErr.handlerErr e),
          clientConstructed := true, clientHeaders := headers,
          attached := pyTruthy request, handlerCalled := true,
          clientClosed := true }

/-- `inject_aiohttp_requestid.wrapper` (`decorators.py`): like the
`httpx` asynchronous wrapper, with the `aiohttp` import check, an
`aiohttp.ClientSession(headers=headers)`, attachment under
`request.state.aiohttp_session`, and `session.close()` in the
`finally` block. -/
def aiohttp_wrapper {ε α : Type} (aiohttpAvailable : Bool)
    (kwargsRequest : Option PyObj) (args : List PyObj)
    (ctx : ContextVar) (funcResult : Except ε α) : WrapRun ε α :=
  if aiohttpAvailable = false then
    { result := Except.error (PyErr.importErr
        "aiohttp not installed. Install with: pip install aiohttp"),
      clientConstructed := false, clientHeaders := [],
      attached := false, handlerCalled := false, clientClosed := false }
  else
    let request := locateRequest kwargsRequest args
    let request_id := get_request_id ctx
    let headers := injectionHeaders request_id
    match funcResult with
    | Except.ok a =>
        { result := Except.ok a,
          clientConstructed := true, clientHeaders := headers,
          attached := pyTruthy request, handlerCalled := true,
          clientClosed := true }
    | Except.error e =>
        { result := Except.error (PyErr.handlerErr e),
          clientConstructed := true, clientHeaders := headers,
          attached := pyTruthy request, handlerCalled := true,
          clientClosed := true }

/-- `inject_requests_requestid.wrapper` (`decorators.py`): the
`requests` import check, request location, then
`session = requests.Session()` — whose library-default headers we take
as a parameter `baseHeaders` — followed by
`session.headers["X-Request-ID"] = request_id` guarded by
`if request_id:`, which is taken only when the identifier is a truthy
(non-`None`, non-empty) string, attachment under
`request.state.requests_session`, the handler call, and
`session.close()` in the `finally` block. -/
def requests_wrapper {ε α : Type} (requestsAvailable : Bool)
    (kwargsRequest : Option PyObj) (args : List PyObj)
    (ctx : ContextVar) (baseHeaders : Headers)
    (funcResult : Except ε α) : WrapRun ε α :=
  if requestsAvailable = false then
    { result := Except.error (PyErr.importErr
        "requests not installed. Install with: pip install requests"),
      clientConstructed := false, clientHeaders := [],
      attached := false, handlerCalled := false, clientClosed := false }
  else
    let request := locateRequest kwargsRequest args
    let request_id := get_request_id ctx
    let sessionHeaders :=
      match request_id with
      | some i => if i = "" then baseHeaders else headersSet baseHeaders "X-Request-ID" i
      | none => baseHeaders
    match funcResult with
    | Except.ok a =>
        { result := Except.ok a,
          clientConstructed := true, clientHeaders := sessionHeaders,
          attached := pyTruthy request, handlerCalled := true,
          clientClosed := true }
    | Except.error e =>
        { result := Except.error (PyErr.handlerErr e),
          clientConstructed := true, clientHeaders := sessionHeaders,
          attached := pyTruthy request, handlerCalled := true,
          clientClosed := true }

/-! Decoration time.  Applying a decorator to a handler runs the
decorator body once: `inject_aiohttp_requestid` and
`inject_requests_requestid` simply return their single wrapper, while
`inject_httpx_requestid` ends with
`if functools.iscoroutinefunction(func): return async_wrapper` /
`return sync_wrapper`.  The Python standard library module `functools`
has no attribute `iscoroutinefunction` (the function lives in the
`inspect` and `asyncio` modules), so that attribute access raises
`AttributeError` for every handler. -/

/-- An exception raised while the decorator itself runs. -/
inductive DecorationErr
  | attributeError (msg : String)
deriving DecidableEq, Repr

/-- The shape of the wrapper a decorator returns: a coroutine function
or a plain synchronous function. -/
inductive WrapperShape
  | asyncShape
  | syncShape
deriving DecidableEq, Repr

/-- Whether the Python standard library module `functools` defines
`iscoroutinefunction`.  It does not, in any CPython version: the
function is `inspect.iscoroutinefunction` (or
`asyncio.iscoroutinefunction`), so `functools.iscoroutinefunction`
raises `AttributeError`. -/
def functoolsHasIscoroutinefunction : Bool := false

/-- `inject_httpx_requestid(func)` at decoration time: evaluate
`functools.iscoroutinefunction(func)` — which raises `AttributeError`,
since `functools` has no such attribute — and otherwise would return
the asynchronous wrapper for a coroutine function and the synchronous
wrapper for a plain function. -/
def inject_httpx_requestid (funcIsCoroutine : Bool) :
    Except DecorationErr WrapperShape :=
  if functoolsHasIscoroutinefunction then
    Except.ok (if funcIsCoroutine then WrapperShape.asyncShape
               else WrapperShape.syncShape)
  else
    Except.error (DecorationErr.attributeError
      "module functools has no attribute iscoroutinefunction")

/-- `inject_aiohttp_requestid(func)` at decoration time: always returns
its single asynchronous wrapper, with no shape detection. -/
def inject_aiohttp_requestid (_funcIsCoroutine : Bool) :
    Except DecorationErr WrapperShape :=
  Except.ok WrapperShape.asyncShape

/-- `inject_requests_requestid(func)` at decoration time: always
returns its single synchronous wrapper, with no shape detection. -/
def inject_requests_requestid (_funcIsCoroutine : Bool) :
    Except DecorationErr WrapperShape :=
  Except.ok WrapperShape.syncShape

/-- A decorator supports both synchronous and asynchronous wrapped
functions when decorating either kind succeeds and yields the wrapper
shape matching the wrapped function. -/
def supportsBothShapes (d : Bool → Except DecorationErr WrapperShape) : Prop :=
  ∀ funcIsCoroutine,
    d funcIsCoroutine =
      Except.ok (if funcIsCoroutine then WrapperShape.asyncShape
                 else WrapperShape.syncShape)

/-- The concrete handler used by the C2 witness: it sets its own value
for the identifier header, which the middleware must overwrite. -/
def witnessHandler : Request → Except Nat Response :=
  fun _ => Except.ok { headers := [("X-Request-ID", "handler-set")] }

/-- The concrete inbound request used by the C2 witness. -/
def witnessRequest : Request :=
  { headers := [("X-Request-ID", "abc-123")], state_request_id := none }

/-! Helper lemmas shared by the claim theorems. -/

theorem pyStrip_empty : pyStrip "" = "" := rfl

theorem resolveRequestId_of_absent (hn g : String) (req : Request)
    (h : headersGet req.headers hn = none) :
    resolveRequestId hn req g = g := by
  simp [resolveRequestId, h]

theorem resolveRequestId_of_blank (hn g : String) (req : Request) (v : String)
    (h : headersGet req.headers hn = some v) (hb : pyStrip v = "") :
    resolveRequestId hn req g = g := by
  simp [resolveRequestId, h, hb]

theorem resolveRequestId_of_nonblank (hn g : String) (req : Request) (v : String)
    (h : headersGet req.headers hn = some v) (hb : pyStrip v ≠ "") :
    resolveRequestId hn req g = v := by
  have hne : v ≠ "" := by
    intro hv
    apply hb
    rw [hv, pyStrip_empty]
  simp [resolveRequestId, h, hb, hne]

theorem headersGet_headersSet (hs : Headers) (n v : String) :
    headersGet (headersSet hs n v) n = some v := by
  unfold headersGet headersSet
  rw [List.find?_append]
  have h1 : (hs.filter fun kv => asciiLower kv.1 ≠ asciiLower n).find?
      (fun kv => asciiLower kv.1 = asciiLower n) = none := by
    rw [List.find?_eq_none]
    intro x hx
    have hmem := (List.mem_filter.mp hx).2
    simp only [decide_eq_true_eq] at hmem ⊢
    simpa using hmem
  rw [h1]
  simp [List.find?]

theorem dispatch_of_ok {ε : Type} (hn g : String)
    (cn : Request → Except ε Response) (ctx : ContextVar) (req : Request)
    (resp : Response)
    (h : cn { req with state_request_id := some (resolveRequestId hn req g) } =
      Except.ok resp) :
    dispatch hn g cn ctx req =
      (Except.ok { resp with
          headers := headersSet resp.headers hn (resolveRequestId hn req g) },
        ⟨ctx.value⟩) := by
  unfold dispatch
  simp only [set_request_id, reset]
  rw [h]

theorem dispatch_of_error {ε : Type} (hn g : String)
    (cn : Request → Except ε Response) (ctx : ContextVar) (req : Request)
    (e : ε)
    (h : cn { req with state_request_id := some (resolveRequestId hn req g) } =
      Except.error e) :
    dispatch hn g cn ctx req = (Except.error e, ⟨ctx.value⟩) := by
  unfold dispatch
  simp only [set_request_id, reset]
  rw [h]

theorem contextVar_eta (ctx : ContextVar) : (⟨ctx.value⟩ : ContextVar) = ctx :=
  rfl

theorem locateRequest_of_no_request (kw : Option PyObj) (args : List PyObj)
    (hkw : pyTruthy kw = false)
    (hargs : ∀ a ∈ args, a.hasStateAttr = false) :
    locateRequest kw args = kw := by
  have hfind : args.find? (fun a => a.hasStateAttr) = none := by
    rw [List.find?_eq_none]
    intro x hx
    simp [hargs x hx]
  simp [locateRequest, hkw, hfind]

/-! The claim theorems. -/

/-- C1: in `RequestIDMiddleware.dispatch`, if the configured header is
absent from the request headers, or its value is empty after trimming
whitespace, the resolved identifier is the value produced by the
generator; otherwise it is the inbound header value verbatim, with no
trimming and no format validation. -/
theorem requestid_resolution_generates_or_reuses_verbatim
    (header_name generated : String) (req : Request) :
    ((headersGet req.headers header_name = none ∨
        (∃ v, headersGet req.headers header_name = some v ∧ pyStrip v = "")) →
      resolveRequestId header_name req generated = generated) ∧
    (∀ v, headersGet req.headers header_name = some v → pyStrip v ≠ "" →
      resolveRequestId header_name req generated = v) := by
  constructor
  · rintro (h | ⟨v, hv, hb⟩)
    · exact resolveRequestId_of_absent header_name generated req h
    · exact resolveRequestId_of_blank header_name generated req v hv hb
  · intro v hv hb
    exact resolveRequestId_of_nonblank header_name generated req v hv hb

/-- Witness for C1: a whitespace-only inbound header — here a space, a
no-break space 0xA0 and a tab, all of which Python `str.strip()`
removes — is replaced by the generated value, and a non-blank one is
reused verbatim (untrimmed). -/
theorem requestid_resolution_generates_or_reuses_verbatim_witness :
    resolveRequestId "X-Request-ID"
      { headers := [("X-Request-ID", " \u00A0\t")], state_request_id := none }
      "gen-1" = "gen-1" ∧
    resolveRequestId "X-Request-ID"
      { headers := [("X-Request-ID", " abc-123 ")], state_request_id := none }
      "gen-1" = " abc-123 " := by
  constructor
  · exact (requestid_resolution_generates_or_reuses_verbatim _ _ _).1
      (Or.inr ⟨" \u00A0\t", by decide, by decide⟩)
  · exact (requestid_resolution_generates_or_reuses_verbatim _ _ _).2
      " abc-123 " (by decide) (by decide)

/-- C2: when the wrapped handler completes normally,
`RequestIDMiddleware.dispatch` sets the configured response header to
the resolved identifier, overwriting any value the handler set for
that header (the theorem quantifies over every handler response,
including those that already carry the header); in particular a
non-blank inbound identifier reappears verbatim on the response. -/
theorem dispatch_sets_response_header_overwriting {ε : Type}
    (header_name generated : String) (cn : Request → Except ε Response)
    (ctx : ContextVar) (req : Request) (resp : Response)
    (h : cn { req with state_request_id := some (resolveRequestId header_name req generated) } = Except.ok resp) :
    ∃ r, (dispatch header_name generated cn ctx req).1 = Except.ok r ∧
      headersGet r.headers header_name =
        some (resolveRequestId header_name req generated) ∧
      (∀ v, headersGet req.headers header_name = some v → pyStrip v ≠ "" →
        headersGet r.headers header_name = some v) := by
  refine ⟨{ resp with headers := headersSet resp.headers header_name (resolveRequestId header_name req generated) }, ?_, ?_, ?_⟩
  · rw [dispatch_of_ok header_name generated cn ctx req resp h]
  · exact headersGet_headersSet resp.headers header_name _
  · intro v hv hb
    rw [resolveRequestId_of_nonblank header_name generated req v hv hb] at *
    exact headersGet_headersSet resp.headers header_name v

/-- Witness for C2: a handler that itself sets `X-Request-ID` to
another value still ends up with the inbound value `abc-123` on the
response. -/
theorem dispatch_sets_response_header_overwriting_witness :
    ∃ r, (dispatch "X-Request-ID" "gen-1" witnessHandler request_id_context witnessRequest).1 = Except.ok r ∧
      headersGet r.headers "X-Request-ID" =
        some (resolveRequestId "X-Request-ID" witnessRequest "gen-1") ∧
      (∀ v, headersGet witnessRequest.headers "X-Request-ID" = some v →
        pyStrip v ≠ "" → headersGet r.headers "X-Request-ID" = some v) :=
  dispatch_sets_response_header_overwriting "X-Request-ID" "gen-1"
    witnessHandler request_id_context witnessRequest
    { headers := [("X-Request-ID", "handler-set")] } rfl

/-- C3: `RequestIDMiddleware.dispatch` always reverts the context
binding via the token of its `set_request_id` call — the final context
equals the initial one on both the normal and the exceptional path —
and a failure of the wrapped handler propagates unchanged, while a
normal completion yields a normal completion (no new failure modes). -/
theorem dispatch_resets_context_and_propagates {ε : Type}
    (header_name generated : String) (cn : Request → Except ε Response)
    (ctx : ContextVar) (req : Request) :
    ((dispatch header_name generated cn ctx req).2 = ctx) ∧
    (∀ e, cn { req with state_request_id := some (resolveRequestId header_name req generated) } = Except.error e →
      (dispatch header_name generated cn ctx req).1 = Except.error e) ∧
    (∀ resp, cn { req with state_request_id := some (resolveRequestId header_name req generated) } = Except.ok resp →
      ∃ r, (dispatch header_name generated cn ctx req).1 = Except.ok r) := by
  refine ⟨?_, ?_, ?_⟩
  · rcases hcn : cn { req with state_request_id := some (resolveRequestId header_name req generated) } with resp | e
    · rw [dispatch_of_error header_name generated cn ctx req _ hcn]
    · rw [dispatch_of_ok header_name generated cn ctx req _ hcn]
  · intro e he
    rw [dispatch_of_error header_name generated cn ctx req e he]
  · intro resp hr
    exact ⟨_, by rw [dispatch_of_ok header_name generated cn ctx req resp hr]⟩

/-- Witness for C3: with a handler that raises, the error comes out
unchanged and the context (initially bound to `"outer"`) is restored. -/
theorem dispatch_resets_context_and_propagates_witness :
    ((dispatch "X-Request-ID" "gen-1"
        (fun _ => (Except.error 42 : Except Nat Response))
        ⟨some "outer"⟩
        { headers := [], state_request_id := none }).2 = ⟨some "outer"⟩) ∧
    ((dispatch "X-Request-ID" "gen-1"
        (fun _ => (Except.error 42 : Except Nat Response))
        ⟨some "outer"⟩
        { headers := [], state_request_id := none }).1 = Except.error 42) := by
  constructor
  · exact (dispatch_resets_context_and_propagates "X-Request-ID" "gen-1"
      (fun _ => (Except.error 42 : Except Nat Response)) ⟨some "outer"⟩
      { headers := [], state_request_id := none }).1
  · exact (dispatch_resets_context_and_propagates "X-Request-ID" "gen-1"
      (fun _ => (Except.error 42 : Except Nat Response)) ⟨some "outer"⟩
      { headers := [], state_request_id := none }).2.1 42 rfl

/-- C4: the context store accessors: `get_request_id()` returns `None`
on the fresh, never-bound variable; after `set_request_id(id)` it
returns exactly `id`; and resetting with the token of that `set`
restores the binding that was current immediately before it. -/
theorem context_store_get_set_reset_roundtrip :
    (get_request_id request_id_context = none) ∧
    (∀ (ctx : ContextVar) (i : String),
      get_request_id (set_request_id i ctx).2 = some i) ∧
    (∀ (ctx : ContextVar) (i : String),
      get_request_id
        (reset (set_request_id i ctx).1 (set_request_id i ctx).2) =
        get_request_id ctx) := by
  refine ⟨rfl, fun ctx i => rfl, fun ctx i => rfl⟩

/-- C6: every injection wrapper invoked with its library available
closes the constructed client on both paths: a handler failure leaves
the client closed and propagates as exactly that failure, and a normal
return leaves the client closed and is returned unchanged. -/
theorem injection_wrappers_close_client_and_propagate {ε α : Type}
    (kw : Option PyObj) (args : List PyObj) (ctx : ContextVar) (base : Headers) :
    (∀ e : ε,
      (async_wrapper (α := α) true kw args ctx (Except.error e)).clientClosed = true ∧
      (async_wrapper (α := α) true kw args ctx (Except.error e)).result = Except.error (PyErr.handlerErr e) ∧
      (sync_wrapper (α := α) true kw args ctx (Except.error e)).clientClosed = true ∧
      (sync_wrapper (α := α) true kw args ctx (Except.error e)).result = Except.error (PyErr.handlerErr e) ∧
      (aiohttp_wrapper (α := α) true kw args ctx (Except.error e)).clientClosed = true ∧
      (aiohttp_wrapper (α := α) true kw args ctx (Except.error e)).result = Except.error (PyErr.handlerErr e) ∧
      (requests_wrapper (α := α) true kw args ctx base (Except.error e)).clientClosed = true ∧
      (requests_wrapper (α := α) true kw args ctx base (Except.error e)).result = Except.error (PyErr.handlerErr e)) ∧
    (∀ a : α,
      (async_wrapper (ε := ε) true kw args ctx (Except.ok a)).clientClosed = true ∧
      (async_wrapper (ε := ε) true kw args ctx (Except.ok a)).result = Except.ok a ∧
      (sync_wrapper (ε := ε) true kw args ctx (Except.ok a)).clientClosed = true ∧
      (sync_wrapper (ε := ε) true kw args ctx (Except.ok a)).result = Except.ok a ∧
      (aiohttp_wrapper (ε := ε) true kw args ctx (Except.ok a)).clientClosed = true ∧
      (aiohttp_wrapper (ε := ε) true kw args ctx (Except.ok a)).result = Except.ok a ∧
      (requests_wrapper (ε := ε) true kw args ctx base (Except.ok a)).clientClosed = true ∧
      (requests_wrapper (ε := ε) true kw args ctx base (Except.ok a)).result = Except.ok a) := by
  constructor
  · intro e
    refine ⟨rfl, rfl, rfl, rfl, rfl, rfl, rfl, rfl⟩
  · intro a
    refine ⟨rfl, rfl, rfl, rfl, rfl, rfl, rfl, rfl⟩

/-- C7 (evaluating the code at the failing input): the `httpx`
decorator body ends in `functools.iscoroutinefunction(func)`, an
attribute the `functools` module does not have, so decorating any
handler — coroutine or not, with or without `httpx` installed — raises
a generic `AttributeError` instead of reaching the wrappers and their
dependency-missing `ImportError`.  The `aiohttp` and `requests`
wrappers do behave as claimed: invoked with the library missing they
fail with the labelled `ImportError` naming the dependency and the
install command, without calling the handler. -/
theorem inject_httpx_decoration_attribute_error :
    (inject_httpx_requestid true = Except.error (DecorationErr.attributeError "module functools has no attribute iscoroutinefunction")) ∧
    (inject_httpx_requestid false = Except.error (DecorationErr.attributeError "module functools has no attribute iscoroutinefunction")) ∧
    ((aiohttp_wrapper false none [] request_id_context (Except.ok 0 : Except Nat Nat)).result = Except.error (PyErr.importErr "aiohttp not installed. Install with: pip install aiohttp")) ∧
    ((aiohttp_wrapper false none [] request_id_context (Except.ok 0 : Except Nat Nat)).handlerCalled = false) ∧
    ((requests_wrapper false none [] request_id_context [] (Except.ok 0 : Except Nat Nat)).result = Except.error (PyErr.importErr "requests not installed. Install with: pip install requests")) ∧
    ((requests_wrapper false none [] request_id_context [] (Except.ok 0 : Except Nat Nat)).handlerCalled = false) :=
  ⟨rfl, rfl, rfl, rfl, rfl, rfl⟩

/-- C8 (counterexample): no injection decorator — in particular not two
of the three — supports both synchronous and asynchronous wrapped
functions with decoration-time detection: the `aiohttp` decorator
always returns its asynchronous wrapper, the `requests` decorator
always returns its synchronous wrapper, and the `httpx` decorator
fails outright because its detection call raises `AttributeError`. -/
theorem wrapper_shape_support_counterexample :
    (¬ supportsBothShapes inject_httpx_requestid) ∧
    (¬ supportsBothShapes inject_aiohttp_requestid) ∧
    (¬ supportsBothShapes inject_requests_requestid) := by
  refine ⟨fun h => ?_, fun h => ?_, fun h => ?_⟩
  · have h1 := h true
    simp [inject_httpx_requestid, functoolsHasIscoroutinefunction] at h1
  · have h1 := h false
    simp [inject_aiohttp_requestid] at h1
  · have h1 := h true
    simp [inject_requests_requestid] at h1

/-- C8 (amended): the `aiohttp` decorator produces an
asynchronous-shaped wrapper for every handler and the `requests`
decorator a synchronous-shaped wrapper for every handler, with no
decoration-time detection; the `httpx` decorator — the only one that
defines both wrapper shapes and attempts decoration-time detection —
raises `AttributeError` for every handler, because the detection calls
`functools.iscoroutinefunction`, which does not exist. -/
theorem wrapper_shape_support :
    (∀ b, inject_aiohttp_requestid b = Except.ok WrapperShape.asyncShape) ∧
    (∀ b, inject_requests_requestid b = Except.ok WrapperShape.syncShape) ∧
    (∀ b, inject_httpx_requestid b = Except.error (DecorationErr.attributeError "module functools has no attribute iscoroutinefunction")) :=
  ⟨fun _ => rfl, fun _ => rfl, fun _ => rfl⟩

/-- C9 (counterexample): with the empty string bound —
`get_request_id()` returns the non-`None` identifier `""`, reachable
since `set_request_id` is public API and the middleware's pluggable
generator may return `""` — no wrapper configures an
`X-Request-ID` header: the `if request_id` guards are falsy, so the
claim that every non-`None` identifier is placed on the client is
false at this input. -/
theorem injection_header_empty_identifier_counterexample :
    get_request_id ⟨some ""⟩ = some "" ∧
    (async_wrapper true none [] ⟨some ""⟩ (Except.ok 0 : Except Nat Nat)).clientHeaders = [] ∧
    (sync_wrapper true none [] ⟨some ""⟩ (Except.ok 0 : Except Nat Nat)).clientHeaders = [] ∧
    (aiohttp_wrapper true none [] ⟨some ""⟩ (Except.ok 0 : Except Nat Nat)).clientHeaders = [] ∧
    (requests_wrapper true none [] ⟨some ""⟩ [("User-Agent", "python-requests")] (Except.ok 0 : Except Nat Nat)).clientHeaders = [("User-Agent", "python-requests")] :=
  ⟨rfl, rfl, rfl, rfl, rfl⟩

/-- C9 (amended): when the context holds a truthy — non-`None` and
non-empty — identifier at invocation time, the `httpx` and `aiohttp`
wrappers construct their client with exactly the header set
`X-Request-ID ↦ id`, and the `requests` wrapper sets that entry on the
constructed session's header collection; when the identifier is
absent or the empty string, the `httpx`/`aiohttp` header set is empty
and the `requests` session headers are left untouched. -/
theorem injection_wrappers_header_from_context {ε α : Type}
    (kw : Option PyObj) (args : List PyObj) (ctx : ContextVar)
    (base : Headers) (fr : Except ε α) :
    (∀ i, get_request_id ctx = some i → i ≠ "" →
      (async_wrapper true kw args ctx fr).clientHeaders = [("X-Request-ID", i)] ∧
      (sync_wrapper true kw args ctx fr).clientHeaders = [("X-Request-ID", i)] ∧
      (aiohttp_wrapper true kw args ctx fr).clientHeaders = [("X-Request-ID", i)] ∧
      headersGet (requests_wrapper true kw args ctx base fr).clientHeaders "X-Request-ID" = some i) ∧
    (get_request_id ctx = none ∨ get_request_id ctx = some "" →
      (async_wrapper true kw args ctx fr).clientHeaders = [] ∧
      (sync_wrapper true kw args ctx fr).clientHeaders = [] ∧
      (aiohttp_wrapper true kw args ctx fr).clientHeaders = [] ∧
      (requests_wrapper true kw args ctx base fr).clientHeaders = base) := by
  constructor
  · intro i hi hne
    cases fr <;>
      simp [async_wrapper, sync_wrapper, aiohttp_wrapper, requests_wrapper,
        injectionHeaders, hi, hne, headersGet_headersSet]
  · rintro (h0 | h0) <;> cases fr <;>
      simp [async_wrapper, sync_wrapper, aiohttp_wrapper, requests_wrapper,
        injectionHeaders, h0]

/-- Witness for C9: with the identifier `abc-123` bound, every client
carries it under `X-Request-ID`; with no binding, the `httpx` and
`aiohttp` header sets are empty and the `requests` session keeps its
library-default headers. -/
theorem injection_wrappers_header_from_context_witness :
    ((async_wrapper true none [] ⟨some "abc-123"⟩ (Except.ok 0 : Except Nat Nat)).clientHeaders = [("X-Request-ID", "abc-123")] ∧
     (sync_wrapper true none [] ⟨some "abc-123"⟩ (Except.ok 0 : Except Nat Nat)).clientHeaders = [("X-Request-ID", "abc-123")] ∧
     (aiohttp_wrapper true none [] ⟨some "abc-123"⟩ (Except.ok 0 : Except Nat Nat)).clientHeaders = [("X-Request-ID", "abc-123")] ∧
     headersGet (requests_wrapper true none [] ⟨some "abc-123"⟩ [("User-Agent", "python-requests")] (Except.ok 0 : Except Nat Nat)).clientHeaders "X-Request-ID" = some "abc-123") ∧
    ((async_wrapper true none [] ⟨none⟩ (Except.ok 0 : Except Nat Nat)).clientHeaders = [] ∧
     (sync_wrapper true none [] ⟨none⟩ (Except.ok 0 : Except Nat Nat)).clientHeaders = [] ∧
     (aiohttp_wrapper true none [] ⟨none⟩ (Except.ok 0 : Except Nat Nat)).clientHeaders = [] ∧
     (requests_wrapper true none [] ⟨none⟩ [("User-Agent", "python-requests")] (Except.ok 0 : Except Nat Nat)).clientHeaders = [("User-Agent", "python-requests")]) :=
  ⟨(injection_wrappers_header_from_context none [] ⟨some "abc-123"⟩ [("User-Agent", "python-requests")] (Except.ok 0 : Except Nat Nat)).1 "abc-123" rfl (by decide),
   (injection_wrappers_header_from_context none [] ⟨none⟩ [("User-Agent", "python-requests")] (Except.ok 0 : Except Nat Nat)).2 (Or.inl rfl)⟩

/-- C10: when the keyword argument named `request` is absent or falsy
and no positional argument has a `state` attribute, every wrapper
still runs to completion: it constructs the client, calls the handler,
returns the handler's outcome unchanged (failures wrapped as handler
failures), closes the client, and attaches the client to no
request-scoped storage. -/
theorem injection_wrappers_without_request {ε α : Type}
    (kw : Option PyObj) (args : List PyObj) (ctx : ContextVar)
    (base : Headers) (fr : Except ε α)
    (hkw : pyTruthy kw = false)
    (hargs : ∀ a ∈ args, a.hasStateAttr = false) :
    (async_wrapper true kw args ctx fr).attached = false ∧
    (async_wrapper true kw args ctx fr).clientConstructed = true ∧
    (async_wrapper true kw args ctx fr).handlerCalled = true ∧
    (async_wrapper true kw args ctx fr).clientClosed = true ∧
    (async_wrapper true kw args ctx fr).result = Except.mapError PyErr.handlerErr fr ∧
    (sync_wrapper true kw args ctx fr).attached = false ∧
    (sync_wrapper true kw args ctx fr).clientConstructed = true ∧
    (sync_wrapper true kw args ctx fr).handlerCalled = true ∧
    (sync_wrapper true kw args ctx fr).clientClosed = true ∧
    (sync_wrapper true kw args ctx fr).result = Except.mapError PyErr.handlerErr fr ∧
    (aiohttp_wrapper true kw args ctx fr).attached = false ∧
    (aiohttp_wrapper true kw args ctx fr).clientConstructed = true ∧
    (aiohttp_wrapper true kw args ctx fr).handlerCalled = true ∧
    (aiohttp_wrapper true kw args ctx fr).clientClosed = true ∧
    (aiohttp_wrapper true kw args ctx fr).result = Except.mapError PyErr.handlerErr fr ∧
    (requests_wrapper true kw args ctx base fr).attached = false ∧
    (requests_wrapper true kw args ctx base fr).clientConstructed = true ∧
    (requests_wrapper true kw args ctx base fr).handlerCalled = true ∧
    (requests_wrapper true kw args ctx base fr).clientClosed = true ∧
    (requests_wrapper true kw args ctx base fr).result = Except.mapError PyErr.handlerErr fr := by
  have hloc : locateRequest kw args = kw :=
    locateRequest_of_no_request kw args hkw hargs
  cases fr <;>
    simp [async_wrapper, sync_wrapper, aiohttp_wrapper, requests_wrapper,
      hloc, hkw, Except.mapError]

/-- Witness for C10: a call with no `request` keyword and no positional
arguments still constructs, uses and closes the client and returns the
handler's value. -/
theorem injection_wrappers_without_request_witness :
    (async_wrapper true none [] request_id_context (Except.ok 7 : Except Nat Nat)).attached = false ∧
    (async_wrapper true none [] request_id_context (Except.ok 7 : Except Nat Nat)).clientConstructed = true ∧
    (async_wrapper true none [] request_id_context (Except.ok 7 : Except Nat Nat)).handlerCalled = true ∧
    (async_wrapper true none [] request_id_context (Except.ok 7 : Except Nat Nat)).clientClosed = true ∧
    (async_wrapper true none [] request_id_context (Except.ok 7 : Except Nat Nat)).result = Except.mapError PyErr.handlerErr (Except.ok 7 : Except Nat Nat) ∧
    (sync_wrapper true none [] request_id_context (Except.ok 7 : Except Nat Nat)).attached = false ∧
    (sync_wrapper true none [] request_id_context (Except.ok 7 : Except Nat Nat)).clientConstructed = true ∧
    (sync_wrapper true none [] request_id_context (Except.ok 7 : Except Nat Nat)).handlerCalled = true ∧
    (sync_wrapper true none [] request_id_context (Except.ok 7 : Except Nat Nat)).clientClosed = true ∧
    (sync_wrapper true none [] request_id_context (Except.ok 7 : Except Nat Nat)).result = Except.mapError PyErr.handlerErr (Except.ok 7 : Except Nat Nat) ∧
    (aiohttp_wrapper true none [] request_id_context (Except.ok 7 : Except Nat Nat)).attached = false ∧
    (aiohttp_wrapper true none [] request_id_context (Except.ok 7 : Except Nat Nat)).clientConstructed = true ∧
    (aiohttp_wrapper true none [] request_id_context (Except.ok 7 : Except Nat Nat)).handlerCalled = true ∧
    (aiohttp_wrapper true none [] request_id_context (Except.ok 7 : Except Nat Nat)).clientClosed = true ∧
    (aiohttp_wrapper true none [] request_id_context (Except.ok 7 : Except Nat Nat)).result = Except.mapError PyErr.handlerErr (Except.ok 7 : Except Nat Nat) ∧
    (requests_wrapper true none [] request_id_context [] (Except.ok 7 : Except Nat Nat)).attached = false ∧
    (requests_wrapper true none [] request_id_context [] (Except.ok 7 : Except Nat Nat)).clientConstructed = true ∧
    (requests_wrapper true none [] request_id_context [] (Except.ok 7 : Except Nat Nat)).handlerCalled = true ∧
    (requests_wrapper true none [] request_id_context [] (Except.ok 7 : Except Nat Nat)).clientClosed = true ∧
    (requests_wrapper true none [] request_id_context [] (Except.ok 7 : Except Nat Nat)).result = Except.mapError PyErr.handlerErr (Except.ok 7 : Except Nat Nat) :=
  injection_wrappers_without_request none [] request_id_context []
    (Except.ok 7 : Except Nat Nat) rfl (by intro a ha; cases ha)

end FastapiReqid
